import Mathlib

/-!
Verification of the swap/points workflow core of the ReWear clothing-exchange
backend (Express + Mongoose). The data model (`User`, `Item`, `Swap`) and the
route handlers (`createSwap`, `respond`, `complete`, `cancel`, `rate`,
`markUnavailable`, `toggleLike`) are shallowly embedded as pure functions over
an explicit database state `DB`; Mongo `findByIdAndUpdate` calls become
id-keyed list updates, and each early `return res.status(...)` becomes an
`Except` error. Point balances and counters are modelled as `Int` because the
code mutates them with unguarded `$inc` operations.
-/

namespace ReWear

/-- Error kinds corresponding to the early-return JSON error responses the
route handlers produce (404, 403, and the various 400 business errors);
`serverError` models a thrown exception caught by the 500 handler. -/
inductive Err where
  | notFound
  | forbidden
  | invalidState
  | itemUnavailable
  | selfSwap
  | invalidOffer
  | insufficientPoints
  | pointsMismatch
  | duplicateRequest
  | validation
  | serverError
deriving Repr, DecidableEq

/-- User document: the fields of `userSchema` the workflow core reads or
writes (`points` defaults to 100 with a schema-level `min: 0`; the counters
are mutated via `$inc`, which bypasses schema validators, so they are `Int`). -/
structure User where
  id : Nat
  points : Int
  swapsCount : Int
  itemsCount : Int
deriving Repr, DecidableEq

/-- Item document: the fields of `itemSchema` the workflow core reads or
writes. -/
structure Item where
  id : Nat
  owner : Nat
  pointsValue : Nat
  isAvailable : Bool
  isApproved : Bool
  isRejected : Bool
  likes : Int
  likedBy : List Nat
deriving Repr, DecidableEq

/-- Swap status enum of `swapSchema.status`. -/
inductive SwapStatus where
  | pending
  | accepted
  | rejected
  | completed
  | cancelled
deriving Repr, DecidableEq

/-- Swap type enum of `swapSchema.swapType`. -/
inductive SwapType where
  | direct
  | points
deriving Repr, DecidableEq

/-- The `pointsTransaction` subdocument stored on an accepted points-swap. -/
structure PointsTransaction where
  fromUser : Nat
  toUser : Nat
  amount : Nat
  transactionId : Nat
deriving Repr, DecidableEq

/-- One rating slot (`rating.requesterRating` / `rating.ownerRating`). -/
structure RatingEntry where
  score : Nat
  comment : String
  createdAt : Nat
deriving Repr, DecidableEq

/-- The `rating` subdocument of a swap. -/
structure RatingPair where
  requesterRating : Option RatingEntry
  ownerRating : Option RatingEntry
deriving Repr, DecidableEq

/-- Swap document (`swapSchema`). -/
structure Swap where
  id : Nat
  requester : Nat
  requestedItem : Nat
  offeredItems : List Nat
  swapType : SwapType
  pointsOffered : Nat
  status : SwapStatus
  message : String
  responseMessage : String
  isCompleted : Bool
  completedAt : Option Nat
  cancelledBy : Option Nat
  cancellationReason : Option String
  rating : RatingPair
  pointsTransaction : Option PointsTransaction
deriving Repr, DecidableEq

/-- The persistent store: one collection per model. -/
structure DB where
  users : List User
  items : List Item
  swaps : List Swap
deriving Repr, DecidableEq

instance {ε α : Type} [DecidableEq ε] [DecidableEq α] : DecidableEq (Except ε α) :=
  fun a b =>
  match a, b with
  | .ok x, .ok y =>
    match decEq x y with
    | isTrue h => isTrue (by rw [h])
    | isFalse h => isFalse (by intro hc; cases hc; exact h rfl)
  | .error x, .error y =>
    match decEq x y with
    | isTrue h => isTrue (by rw [h])
    | isFalse h => isFalse (by intro hc; cases hc; exact h rfl)
  | .ok _, .error _ => isFalse (by intro hc; cases hc)
  | .error _, .ok _ => isFalse (by intro hc; cases hc)

/-- Update every element whose key equals `key` (Mongo updates are keyed by
the unique `_id`, so at most one element is affected in well-formed data). -/
def updBy (k : α → Nat) (key : Nat) (f : α → α) (l : List α) : List α :=
  l.map (fun x => bif k x == key then f x else x)

def findUser (db : DB) (uid : Nat) : Option User :=
  db.users.find? (fun u => u.id == uid)

def findItem (db : DB) (iid : Nat) : Option Item :=
  db.items.find? (fun i => i.id == iid)

def findSwap (db : DB) (sid : Nat) : Option Swap :=
  db.swaps.find? (fun s => s.id == sid)

def updateUserById (db : DB) (uid : Nat) (f : User → User) : DB :=
  { db with users := updBy User.id uid f db.users }

def updateItemById (db : DB) (iid : Nat) (f : Item → Item) : DB :=
  { db with items := updBy Item.id iid f db.items }

def updateSwapById (db : DB) (sid : Nat) (f : Swap → Swap) : DB :=
  { db with swaps := updBy Swap.id sid f db.swaps }

/-- `User.findByIdAndUpdate(uid, { $inc: { points: d } })`. -/
def incPoints (db : DB) (uid : Nat) (d : Int) : DB :=
  updateUserById db uid (fun u => { u with points := u.points + d })

/-- `User.findByIdAndUpdate(uid, { $inc: { swapsCount: ds, points: dp } })`. -/
def incSwapStats (db : DB) (uid : Nat) (ds dp : Int) : DB :=
  updateUserById db uid
    (fun u => { u with swapsCount := u.swapsCount + ds, points := u.points + dp })

/-- `User.findByIdAndUpdate(uid, { $inc: { swapsCount: d } })`. -/
def incSwapsCount (db : DB) (uid : Nat) (d : Int) : DB :=
  updateUserById db uid (fun u => { u with swapsCount := u.swapsCount + d })

/-- `User.findByIdAndUpdate(uid, { $inc: { itemsCount: d } })`. -/
def incItemsCount (db : DB) (uid : Nat) (d : Int) : DB :=
  updateUserById db uid (fun u => { u with itemsCount := u.itemsCount + d })

/-- `Item.findByIdAndUpdate(iid, { isAvailable: false })`. -/
def setItemUnavailable (db : DB) (iid : Nat) : DB :=
  updateItemById db iid (fun i => { i with isAvailable := false })

/-- `itemSchema.methods.toggleLike`: `indexOf > -1` then `splice`/decrement,
else `push`/increment (part_000 lines 417-427). -/
def toggleLike (item : Item) (userId : Nat) : Item :=
  if userId ∈ item.likedBy then
    { item with likedBy := item.likedBy.erase userId, likes := item.likes - 1 }
  else
    { item with likedBy := item.likedBy ++ [userId], likes := item.likes + 1 }

theorem find?_updBy_self (k : α → Nat) (key : Nat) (f : α → α)
    (hf : ∀ x, k (f x) = k x) (l : List α) :
    (updBy k key f l).find? (fun x => k x == key) =
      (l.find? (fun x => k x == key)).map f := by
  induction l with
  | nil => rfl
  | cons a t ih =>
    have hcons : updBy k key f (a :: t) =
        (bif k a == key then f a else a) :: updBy k key f t := rfl
    rw [hcons]
    cases hb : k a == key with
    | true =>
      have ha : k a = key := by simpa using hb
      have hfa : (k (f a) == key) = true := by simp [hf, ha]
      rw [cond_true]
      simp only [List.find?_cons, hfa, hb]
      rfl
    | false =>
      rw [cond_false]
      simp only [List.find?_cons, hb]
      exact ih

theorem find?_updBy_other (k : α → Nat) (key key' : Nat) (f : α → α)
    (hf : ∀ x, k (f x) = k x) (hne : key' ≠ key) (l : List α) :
    (updBy k key f l).find? (fun x => k x == key') =
      l.find? (fun x => k x == key') := by
  induction l with
  | nil => rfl
  | cons a t ih =>
    have hcons : updBy k key f (a :: t) =
        (bif k a == key then f a else a) :: updBy k key f t := rfl
    rw [hcons]
    cases hb : k a == key with
    | true =>
      have ha : k a = key := by simpa using hb
      have hfa : (k (f a) == key') = false := by
        simp only [hf, ha, beq_eq_false_iff_ne, ne_eq]
        omega
      have hak : (k a == key') = false := by
        simp only [ha, beq_eq_false_iff_ne, ne_eq]
        omega
      rw [cond_true]
      simp only [List.find?_cons, hfa, hak]
      exact ih
    | false =>
      rw [cond_false]
      cases hc : k a == key' with
      | true =>
        simp only [List.find?_cons, hc]
      | false =>
        simp only [List.find?_cons, hc]
        exact ih

/-- Request body of `POST /api/swaps` after express-validator shape checks
(`pointsOffered` is optional in the body, hence `Option`). -/
structure CreateReq where
  requestedItem : Nat
  offeredItems : List Nat
  swapType : SwapType
  pointsOffered : Option Nat
  message : String
deriving Repr, DecidableEq

/-- The swap document `new Swap({...})` constructs (part_004 lines 1317-1324),
with the schema defaults for the unspecified fields. -/
def newSwapOf (requesterId : Nat) (r : CreateReq) (newId : Nat) : Swap :=
  { id := newId
    requester := requesterId
    requestedItem := r.requestedItem
    offeredItems := match r.swapType with | .direct => r.offeredItems | .points => []
    swapType := r.swapType
    pointsOffered := match r.swapType with | .points => r.pointsOffered.getD 0 | .direct => 0
    status := .pending
    message := r.message
    responseMessage := ""
    isCompleted := false
    completedAt := none
    cancelledBy := none
    cancellationReason := none
    rating := ⟨none, none⟩
    pointsTransaction := none }

/-- The per-item loop over the offered-item documents (part_004 lines
1266-1279): ownership is checked before availability, item by item. -/
def checkOffered : List Item → Nat → Option Err
  | [], _ => none
  | i :: rest, uid =>
    if i.owner == uid then
      if i.isAvailable && i.isApproved then checkOffered rest uid
      else some .invalidOffer
    else some .forbidden

/-- `Item.find({ _id: { $in: offeredItems } })` (part_004 line 1257): the
stored items whose id occurs among the offered ids, in store order. -/
def offeredDocs (db : DB) (r : CreateReq) : List Item :=
  db.items.filter (fun i => r.offeredItems.contains i.id)

/-- The duplicate-pending check (`Swap.findOne`, part_004 lines 1303-1314)
followed by the swap construction and save. -/
def finishCreate (db : DB) (requesterId : Nat) (r : CreateReq) (newId : Nat) :
    Except Err DB :=
  if db.swaps.any (fun s => s.requester == requesterId
      && s.requestedItem == r.requestedItem && s.status == SwapStatus.pending) then
    .error .duplicateRequest
  else
    .ok { db with swaps := db.swaps ++ [newSwapOf requesterId r newId] }

/-- `POST /api/swaps` (part_004 lines 1190-1347). The guards run in source
order: validator bound on `pointsOffered`, requested-item lookup,
availability, self-swap, then the type-specific checks, then the duplicate
check, and only then the save. -/
def createSwap (db : DB) (requesterId : Nat) (r : CreateReq) (newId : Nat) :
    Except Err DB :=
  if r.pointsOffered == some 0 then .error .validation
  else
    match findUser db requesterId with
    | none => .error .serverError
    | some requester =>
      match findItem db r.requestedItem with
      | none => .error .notFound
      | some item =>
        if !(item.isAvailable && item.isApproved) then .error .itemUnavailable
        else if item.owner == requesterId then .error .selfSwap
        else
          match r.swapType with
          | .direct =>
            if r.offeredItems.isEmpty then .error .invalidOffer
            else if (offeredDocs db r).length != r.offeredItems.length then .error .notFound
            else
              match checkOffered (offeredDocs db r) requesterId with
              | some e => .error e
              | none => finishCreate db requesterId r newId
          | .points =>
            match r.pointsOffered with
            | none => .error .validation
            | some p =>
              if requester.points < (p : Int) then .error .insufficientPoints
              else if p != item.pointsValue then .error .pointsMismatch
              else finishCreate db requesterId r newId

/-- Accept, points branch, write 1 (part_004 lines 1628-1630): debit the
requester by `pointsOffered` with an unguarded `$inc`. -/
def apS1 (db : DB) (sw : Swap) : DB :=
  incPoints db sw.requester (-(sw.pointsOffered : Int))

/-- Accept, points branch, write 2 (lines 1632-1634): credit the owner. -/
def apS2 (db : DB) (sw : Swap) (ownerId : Nat) : DB :=
  incPoints (apS1 db sw) ownerId (sw.pointsOffered : Int)

/-- Accept, points branch, write 3 (lines 1637-1639): mark the requested item
unavailable. -/
def apS3 (db : DB) (sw : Swap) (ownerId : Nat) : DB :=
  setItemUnavailable (apS2 db sw ownerId) sw.requestedItem

/-- The in-memory swap mutation of the points-accept branch before
`swap.save()`. -/
def acceptPointsUpd (sw : Swap) (ownerId : Nat) (msg : String) (txn : Nat)
    (s : Swap) : Swap :=
  { s with status := .accepted, responseMessage := msg,
           pointsTransaction := some ⟨sw.requester, ownerId, sw.pointsOffered, txn⟩ }

/-- Accept, points branch, write 4 (lines 1642-1651): save the swap with
status `accepted`, the response message and the `pointsTransaction` record. -/
def apS4 (db : DB) (sw : Swap) (ownerId : Nat) (msg : String) (txn : Nat) : DB :=
  updateSwapById (apS3 db sw ownerId) sw.id (acceptPointsUpd sw ownerId msg txn)

/-- Accept, points branch, write 5 (lines 1654-1656): requester stats and
100-point bonus. -/
def apS5 (db : DB) (sw : Swap) (ownerId : Nat) (msg : String) (txn : Nat) : DB :=
  incSwapStats (apS4 db sw ownerId msg txn) sw.requester 1 100

/-- Accept, points branch, write 6 (lines 1657-1659): owner stats and
100-point bonus. -/
def apS6 (db : DB) (sw : Swap) (ownerId : Nat) (msg : String) (txn : Nat) : DB :=
  incSwapStats (apS5 db sw ownerId msg txn) ownerId 1 100

/-- The database states after each of the six sequential writes of the
points-accept branch: every element is a state an independent concurrent
reader could observe, since each write is a separate awaited Mongo call. -/
def acceptPointsTrace (db : DB) (sw : Swap) (ownerId : Nat) (msg : String)
    (txn : Nat) : List DB :=
  [apS1 db sw, apS2 db sw ownerId, apS3 db sw ownerId, apS4 db sw ownerId msg txn,
   apS5 db sw ownerId msg txn, apS6 db sw ownerId msg txn]

/-- Accept, direct branch, write 1 (part_004 lines 1664-1666): mark the
requested item unavailable. -/
def adS1 (db : DB) (sw : Swap) : DB :=
  setItemUnavailable db sw.requestedItem

/-- Accept, direct branch, write 2 (lines 1669-1673): mark every offered item
unavailable, in order. -/
def adS2 (db : DB) (sw : Swap) : DB :=
  sw.offeredItems.foldl setItemUnavailable (adS1 db sw)

/-- The in-memory swap mutation of the direct-accept branch before
`swap.save()`. -/
def acceptDirectUpd (msg : String) (s : Swap) : Swap :=
  { s with status := .accepted, responseMessage := msg }

/-- Accept, direct branch, write 3 (lines 1676-1678): save the swap with
status `accepted` and the response message. -/
def adS3 (db : DB) (sw : Swap) (msg : String) : DB :=
  updateSwapById (adS2 db sw) sw.id (acceptDirectUpd msg)

/-- Accept, direct branch, write 4 (lines 1681-1683): `$inc swapsCount` for
the requester. -/
def adS4 (db : DB) (sw : Swap) (msg : String) : DB :=
  incSwapsCount (adS3 db sw msg) sw.requester 1

/-- Accept, direct branch, write 5 (lines 1684-1686): `$inc swapsCount` for
the owner. -/
def adS5 (db : DB) (sw : Swap) (ownerId : Nat) (msg : String) : DB :=
  incSwapsCount (adS4 db sw msg) ownerId 1

/-- Accept, direct branch, write 6 (lines 1687-1689): a second
`$inc swapsCount` for the requester, this time together with the 100-point
bonus. -/
def adS6 (db : DB) (sw : Swap) (ownerId : Nat) (msg : String) : DB :=
  incSwapStats (adS5 db sw ownerId msg) sw.requester 1 100

/-- Accept, direct branch, write 7 (lines 1690-1692): a second
`$inc swapsCount` for the owner, together with the bonus. -/
def adS7 (db : DB) (sw : Swap) (ownerId : Nat) (msg : String) : DB :=
  incSwapStats (adS6 db sw ownerId msg) ownerId 1 100

/-- The `action` body field of `PUT /api/swaps/:id/respond`. -/
inductive RespondAction where
  | accept
  | reject
deriving Repr, DecidableEq

/-- `rejectSwap` (Swap.js lines 120-124). -/
def rejectUpd (msg : String) (s : Swap) : Swap :=
  { s with status := .rejected, responseMessage := msg }

/-- `completeSwap` (Swap.js lines 127-132). -/
def completeUpd (now : Nat) (s : Swap) : Swap :=
  { s with status := .completed, isCompleted := true, completedAt := some now }

/-- `cancelSwap` (Swap.js lines 135-140). -/
def cancelUpd (callerId : Nat) (reason : String) (s : Swap) : Swap :=
  { s with status := .cancelled, cancelledBy := some callerId,
           cancellationReason := some reason }

/-- `addRating` (Swap.js lines 143-158), requester slot. -/
def rateUpd (score : Nat) (comment : String) (now : Nat) (s : Swap) : Swap :=
  { s with rating := { s.rating with requesterRating := some ⟨score, comment, now⟩ } }

/-- `PUT /api/swaps/:id/respond` (part_004 lines 1571-1721): ownership check,
then the pending guard, then the accept (points or direct) or reject writes.
The accept path never re-checks the requested item's availability. -/
def respond (db : DB) (sid responderId : Nat) (act : RespondAction)
    (msg : String) (txn : Nat) : Except Err DB :=
  match findSwap db sid with
  | none => .error .notFound
  | some sw =>
    match findItem db sw.requestedItem with
    | none => .error .serverError
    | some item =>
      if !(item.owner == responderId) then .error .forbidden
      else if !(sw.status == SwapStatus.pending) then .error .invalidState
      else
        match act with
        | .accept =>
          match sw.swapType with
          | .points => .ok (apS6 db sw item.owner msg txn)
          | .direct => .ok (adS7 db sw item.owner msg)
        | .reject =>
          .ok (updateSwapById db sw.id (rejectUpd msg))

/-- `PUT /api/swaps/:id/complete` (part_004 lines 1726-1776): involvement
check, accepted guard, then `completeSwap()`. -/
def complete (db : DB) (sid callerId now : Nat) : Except Err DB :=
  match findSwap db sid with
  | none => .error .notFound
  | some sw =>
    match findItem db sw.requestedItem with
    | none => .error .serverError
    | some item =>
      if !(callerId == sw.requester || callerId == item.owner) then .error .forbidden
      else if !(sw.status == SwapStatus.accepted) then .error .invalidState
      else .ok (updateSwapById db sw.id (completeUpd now))

/-- `PUT /api/swaps/:id/cancel` (part_004 lines 1781-1841): involvement
check, pending-or-accepted guard, then `cancelSwap(userId, reason)`. -/
def cancel (db : DB) (sid callerId : Nat) (reason : String) : Except Err DB :=
  match findSwap db sid with
  | none => .error .notFound
  | some sw =>
    match findItem db sw.requestedItem with
    | none => .error .serverError
    | some item =>
      if !(callerId == sw.requester || callerId == item.owner) then .error .forbidden
      else if !(sw.status == SwapStatus.pending || sw.status == SwapStatus.accepted) then
        .error .invalidState
      else .ok (updateSwapById db sw.id (cancelUpd callerId reason))

/-- `POST /api/swaps/:id/rate` (part_004 lines 1846-1908). The handler reads
`swap.requestedItem.owner` on an unpopulated document, so only the requester
side of the involvement check can evaluate; any other caller makes the
handler throw into the catch-all 500. -/
def rate (db : DB) (sid callerId score : Nat) (comment : String) (now : Nat) :
    Except Err DB :=
  match findSwap db sid with
  | none => .error .notFound
  | some sw =>
    if callerId == sw.requester then
      if !(sw.status == SwapStatus.completed) then .error .invalidState
      else .ok (updateSwapById db sw.id (rateUpd score comment now))
    else .error .serverError

/-- `POST /api/items/:id/mark-unavailable` (part_004 lines 179-221): owner
and availability guards, then `Item.findByIdAndDelete` followed by a
`$inc itemsCount: -1` on the calling owner. -/
def markUnavailable (db : DB) (iid callerId : Nat) : Except Err DB :=
  match findItem db iid with
  | none => .error .notFound
  | some item =>
    if !(item.owner == callerId) then .error .forbidden
    else if !item.isAvailable then .error .invalidState
    else
      .ok (incItemsCount { db with items := db.items.filter (fun i => !(i.id == iid)) }
        callerId (-1))

/-- One mutating call of the Swap Engine. -/
inductive Op where
  | create (requesterId : Nat) (r : CreateReq) (newId : Nat)
  | respond (sid responderId : Nat) (act : RespondAction) (msg : String) (txn : Nat)
  | complete (sid callerId now : Nat)
  | cancel (sid callerId : Nat) (reason : String)
  | rate (sid callerId score : Nat) (comment : String) (now : Nat)
deriving Repr, DecidableEq

/-- Dispatch an operation to its route handler. -/
def applyOp (db : DB) : Op → Except Err DB
  | .create q r n => createSwap db q r n
  | .respond sid q act m t => respond db sid q act m t
  | .complete sid q now => complete db sid q now
  | .cancel sid q reason => cancel db sid q reason
  | .rate sid q sc c now => rate db sid q sc c now

/-- Run a sequence of operations, stopping at the first error. -/
def runOps (db : DB) (ops : List Op) : Except Err DB :=
  ops.foldlM applyOp db

/-- The §4.3 status graph, reflexive on every state: `pending` may move to
`accepted`, `rejected` or `cancelled`; `accepted` to `completed` or
`cancelled`; the terminal states only to themselves. -/
def allowedStep : SwapStatus → SwapStatus → Bool
  | .pending, .pending => true
  | .pending, .accepted => true
  | .pending, .rejected => true
  | .pending, .cancelled => true
  | .accepted, .accepted => true
  | .accepted, .completed => true
  | .accepted, .cancelled => true
  | .rejected, .rejected => true
  | .completed, .completed => true
  | .cancelled, .cancelled => true
  | _, _ => false

/-- Every swap present in both states moved along the status graph. -/
def stepOK (db db' : DB) : Bool :=
  db'.swaps.all (fun s' => db.swaps.all (fun s =>
    !(s'.id == s.id) || allowedStep s.status s'.status))

/-- For a `create` operation the fresh Mongo `_id` collides with no stored
swap; every other operation is unconstrained. -/
def opFreshB (db : DB) : Op → Bool
  | .create _ _ newId => db.swaps.all (fun s => !(s.id == newId))
  | _ => true

/-- At most one pending swap per `(requester, requestedItem)` pair. -/
def pairNodupB (db : DB) : Bool :=
  db.swaps.all (fun s => db.swaps.all (fun t =>
    !(s.status == SwapStatus.pending && t.status == SwapStatus.pending
       && s.requester == t.requester && s.requestedItem == t.requestedItem)
      || s == t))

/-- Example requester: 500 points. -/
def exUserR : User := { id := 1, points := 500, swapsCount := 0, itemsCount := 0 }

/-- Example owner: 50 points. -/
def exUserO : User := { id := 2, points := 50, swapsCount := 0, itemsCount := 0 }

/-- Example item owned by user 2, valued at 80 points. -/
def exItem10 : Item :=
  { id := 10, owner := 2, pointsValue := 80, isAvailable := true, isApproved := true,
    isRejected := false, likes := 0, likedBy := [] }

/-- Example item owned by user 1 (offered in a direct swap). -/
def exItem20 : Item :=
  { id := 20, owner := 1, pointsValue := 30, isAvailable := true, isApproved := true,
    isRejected := false, likes := 0, likedBy := [] }

/-- Example pending points-swap: user 1 offers 80 points for item 10. -/
def exSwap100 : Swap :=
  { id := 100, requester := 1, requestedItem := 10, offeredItems := [],
    swapType := .points, pointsOffered := 80, status := .pending, message := "",
    responseMessage := "", isCompleted := false, completedAt := none,
    cancelledBy := none, cancellationReason := none, rating := ⟨none, none⟩,
    pointsTransaction := none }

/-- Store with one pending points-swap. -/
def exDB1 : DB := { users := [exUserR, exUserO], items := [exItem10], swaps := [exSwap100] }

/-- Example pending direct swap: user 1 offers item 20 for item 10. -/
def exSwap200 : Swap :=
  { id := 200, requester := 1, requestedItem := 10, offeredItems := [20],
    swapType := .direct, pointsOffered := 0, status := .pending, message := "",
    responseMessage := "", isCompleted := false, completedAt := none,
    cancelledBy := none, cancellationReason := none, rating := ⟨none, none⟩,
    pointsTransaction := none }

/-- Store with one pending direct swap, both parties starting at 0 points and
0 swapsCount. -/
def exDB2 : DB :=
  { users := [⟨1, 0, 0, 0⟩, ⟨2, 0, 0, 0⟩], items := [exItem10, exItem20],
    swaps := [exSwap200] }

/-- Store for the negative-balance run: user 1 holds 300 points; items 10 and
20 are each valued at 300 and owned by users 2 and 3. -/
def exDB3 : DB :=
  { users := [⟨1, 300, 0, 0⟩, ⟨2, 0, 0, 0⟩, ⟨3, 0, 0, 0⟩],
    items := [⟨10, 2, 300, true, true, false, 0, []⟩,
              ⟨20, 3, 300, true, true, false, 0, []⟩],
    swaps := [] }

/-- User 1 creates points-swaps for both 300-point items while holding 300
points; both owners then accept. -/
def exOps3 : List Op :=
  [.create 1 ⟨10, [], .points, some 300, ""⟩ 101,
   .create 1 ⟨20, [], .points, some 300, ""⟩ 102,
   .respond 101 2 .accept "" 0,
   .respond 102 3 .accept "" 1]

/-- Example pending points-swap for the state-machine store. -/
def exSwap300 : Swap :=
  { id := 300, requester := 1, requestedItem := 10, offeredItems := [],
    swapType := .points, pointsOffered := 80, status := .pending, message := "",
    responseMessage := "", isCompleted := false, completedAt := none,
    cancelledBy := none, cancellationReason := none, rating := ⟨none, none⟩,
    pointsTransaction := none }

/-- Example accepted swap. -/
def exSwap301 : Swap :=
  { id := 301, requester := 1, requestedItem := 10, offeredItems := [],
    swapType := .points, pointsOffered := 80, status := .accepted, message := "",
    responseMessage := "", isCompleted := false, completedAt := none,
    cancelledBy := none, cancellationReason := none, rating := ⟨none, none⟩,
    pointsTransaction := none }

/-- Example completed (terminal) swap. -/
def exSwap302 : Swap :=
  { id := 302, requester := 1, requestedItem := 10, offeredItems := [],
    swapType := .direct, pointsOffered := 0, status := .completed, message := "",
    responseMessage := "", isCompleted := true, completedAt := some 5,
    cancelledBy := none, cancellationReason := none, rating := ⟨none, none⟩,
    pointsTransaction := none }

/-- Store holding a pending, an accepted and a completed swap on item 10. -/
def exDB4 : DB :=
  { users := [⟨1, 100, 0, 0⟩, ⟨2, 100, 0, 0⟩], items := [exItem10],
    swaps := [exSwap300, exSwap301, exSwap302] }

/-- Store with no swaps yet (for successful creation examples). -/
def exDB5 : DB :=
  { users := [⟨1, 500, 0, 0⟩, ⟨2, 0, 0, 0⟩], items := [exItem10], swaps := [] }

/-- A well-formed points request for item 10. -/
def exReq5 : CreateReq := ⟨10, [], .points, some 80, ""⟩

/-- The store after user 1 successfully requests item 10 on `exDB5`. -/
def exDB9res : DB := { exDB5 with swaps := [newSwapOf 1 exReq5 900] }

/-- Example available item owned by user 5, who has `itemsCount = 3`. -/
def exItemM : Item :=
  { id := 1, owner := 5, pointsValue := 10, isAvailable := true, isApproved := true,
    isRejected := false, likes := 0, likedBy := [] }

/-- Store for the mark-unavailable example. -/
def exDB6 : DB := { users := [⟨5, 100, 0, 3⟩], items := [exItemM], swaps := [] }

/-- The store `markUnavailable` actually produces on `exDB6`: the item row is
gone and the owner's `itemsCount` dropped to 2. -/
def exDB6res : DB := { users := [⟨5, 100, 0, 2⟩], items := [], swaps := [] }

/-- An item that has become unavailable while a swap for it is still pending. -/
def exItem11 : Item :=
  { id := 11, owner := 2, pointsValue := 80, isAvailable := false, isApproved := true,
    isRejected := false, likes := 0, likedBy := [] }

/-- Pending points-swap for the already-unavailable item 11. -/
def exSwap110 : Swap :=
  { id := 110, requester := 1, requestedItem := 11, offeredItems := [],
    swapType := .points, pointsOffered := 80, status := .pending, message := "",
    responseMessage := "", isCompleted := false, completedAt := none,
    cancelledBy := none, cancellationReason := none, rating := ⟨none, none⟩,
    pointsTransaction := none }

/-- Store with a pending swap whose requested item is no longer available. -/
def exDB7 : DB :=
  { users := [⟨1, 500, 0, 0⟩, ⟨2, 0, 0, 0⟩], items := [exItem11], swaps := [exSwap110] }

/-- The store after user 1 cancels the accepted swap 301 on `exDB4`. -/
def exDB8res : DB := updateSwapById exDB4 301 (cancelUpd 1 "x")

/-- An item user 7 already likes (`likes = 1`, `likedBy = [7]`). -/
def exItemL : Item :=
  { id := 30, owner := 2, pointsValue := 10, isAvailable := true, isApproved := true,
    isRejected := false, likes := 1, likedBy := [7] }

theorem allowedStep_refl (c : SwapStatus) : allowedStep c c = true := by
  cases c <;> rfl

theorem findUser_updateUserById_self (db : DB) (uid : Nat) (f : User → User)
    (hf : ∀ u, (f u).id = u.id) :
    findUser (updateUserById db uid f) uid = (findUser db uid).map f :=
  find?_updBy_self User.id uid f hf db.users

theorem findUser_updateUserById_other (db : DB) (uid v : Nat) (f : User → User)
    (hf : ∀ u, (f u).id = u.id) (hne : v ≠ uid) :
    findUser (updateUserById db uid f) v = findUser db v :=
  find?_updBy_other User.id uid v f hf hne db.users

theorem findItem_updateItemById_self (db : DB) (iid : Nat) (f : Item → Item)
    (hf : ∀ i, (f i).id = i.id) :
    findItem (updateItemById db iid f) iid = (findItem db iid).map f :=
  find?_updBy_self Item.id iid f hf db.items

theorem findItem_updateItemById_other (db : DB) (iid v : Nat) (f : Item → Item)
    (hf : ∀ i, (f i).id = i.id) (hne : v ≠ iid) :
    findItem (updateItemById db iid f) v = findItem db v :=
  find?_updBy_other Item.id iid v f hf hne db.items

theorem findSwap_updateSwapById_self (db : DB) (sid : Nat) (f : Swap → Swap)
    (hf : ∀ s, (f s).id = s.id) :
    findSwap (updateSwapById db sid f) sid = (findSwap db sid).map f :=
  find?_updBy_self Swap.id sid f hf db.swaps

theorem findSwap_updateSwapById_other (db : DB) (sid v : Nat) (f : Swap → Swap)
    (hf : ∀ s, (f s).id = s.id) (hne : v ≠ sid) :
    findSwap (updateSwapById db sid f) v = findSwap db v :=
  find?_updBy_other Swap.id sid v f hf hne db.swaps

theorem findUser_updateItemById (db : DB) (iid : Nat) (f : Item → Item) (uid : Nat) :
    findUser (updateItemById db iid f) uid = findUser db uid := rfl

theorem findUser_updateSwapById (db : DB) (sid : Nat) (f : Swap → Swap) (uid : Nat) :
    findUser (updateSwapById db sid f) uid = findUser db uid := rfl

theorem findItem_updateUserById (db : DB) (uid : Nat) (f : User → User) (iid : Nat) :
    findItem (updateUserById db uid f) iid = findItem db iid := rfl

theorem findItem_updateSwapById (db : DB) (sid : Nat) (f : Swap → Swap) (iid : Nat) :
    findItem (updateSwapById db sid f) iid = findItem db iid := rfl

theorem findSwap_updateUserById (db : DB) (uid : Nat) (f : User → User) (sid : Nat) :
    findSwap (updateUserById db uid f) sid = findSwap db sid := rfl

theorem findSwap_updateItemById (db : DB) (iid : Nat) (f : Item → Item) (sid : Nat) :
    findSwap (updateItemById db iid f) sid = findSwap db sid := rfl

theorem swaps_foldl_setItemUnavailable (l : List Nat) (d : DB) :
    (List.foldl setItemUnavailable d l).swaps = d.swaps := by
  induction l generalizing d with
  | nil => rfl
  | cons a t ih => exact ih (setItemUnavailable d a)

theorem users_foldl_setItemUnavailable (l : List Nat) (d : DB) :
    (List.foldl setItemUnavailable d l).users = d.users := by
  induction l generalizing d with
  | nil => rfl
  | cons a t ih => exact ih (setItemUnavailable d a)

theorem findUser_foldl_setItemUnavailable (l : List Nat) (d : DB) (uid : Nat) :
    findUser (List.foldl setItemUnavailable d l) uid = findUser d uid := by
  unfold findUser
  rw [users_foldl_setItemUnavailable]

theorem findSwap_foldl_setItemUnavailable (l : List Nat) (d : DB) (sid : Nat) :
    findSwap (List.foldl setItemUnavailable d l) sid = findSwap d sid := by
  unfold findSwap
  rw [swaps_foldl_setItemUnavailable]

theorem swaps_apS6 (db : DB) (sw : Swap) (ownerId : Nat) (msg : String) (txn : Nat) :
    (apS6 db sw ownerId msg txn).swaps =
      updBy Swap.id sw.id (acceptPointsUpd sw ownerId msg txn) db.swaps := rfl

theorem swaps_adS2 (db : DB) (sw : Swap) : (adS2 db sw).swaps = db.swaps :=
  swaps_foldl_setItemUnavailable _ _

theorem users_adS2 (db : DB) (sw : Swap) : (adS2 db sw).users = db.users :=
  users_foldl_setItemUnavailable _ _

theorem swaps_adS7 (db : DB) (sw : Swap) (ownerId : Nat) (msg : String) :
    (adS7 db sw ownerId msg).swaps =
      updBy Swap.id sw.id (acceptDirectUpd msg) db.swaps := by
  show updBy Swap.id sw.id (acceptDirectUpd msg) (adS2 db sw).swaps = _
  rw [swaps_adS2]

theorem id_of_findUser {db : DB} {uid : Nat} {u : User}
    (h : findUser db uid = some u) : u.id = uid := by
  have := List.find?_some h
  simpa using this

theorem mem_of_findUser {db : DB} {uid : Nat} {u : User}
    (h : findUser db uid = some u) : u ∈ db.users :=
  List.mem_of_find?_eq_some h

theorem id_of_findItem {db : DB} {iid : Nat} {i : Item}
    (h : findItem db iid = some i) : i.id = iid := by
  have := List.find?_some h
  simpa using this

theorem mem_of_findItem {db : DB} {iid : Nat} {i : Item}
    (h : findItem db iid = some i) : i ∈ db.items :=
  List.mem_of_find?_eq_some h

theorem id_of_findSwap {db : DB} {sid : Nat} {sw : Swap}
    (h : findSwap db sid = some sw) : sw.id = sid := by
  have := List.find?_some h
  simpa using this

theorem mem_of_findSwap {db : DB} {sid : Nat} {sw : Swap}
    (h : findSwap db sid = some sw) : sw ∈ db.swaps :=
  List.mem_of_find?_eq_some h

theorem eq_of_key_eq (k : α → Nat) {l : List α} (hn : (l.map k).Nodup)
    {s t : α} (hs : s ∈ l) (ht : t ∈ l) (h : k s = k t) : s = t :=
  List.inj_on_of_nodup_map hn hs ht h

theorem eq_findSwap_of_mem {db : DB} {sid : Nat} {sw s : Swap}
    (hn : (db.swaps.map Swap.id).Nodup)
    (hfind : findSwap db sid = some sw) (hs : s ∈ db.swaps) (hid : s.id = sid) :
    s = sw :=
  eq_of_key_eq Swap.id hn hs (mem_of_findSwap hfind)
    (by rw [hid, id_of_findSwap hfind])

theorem stepOK_of_updBy (db db' : DB) (sid : Nat) (g : Swap → Swap)
    (hswaps : db'.swaps = updBy Swap.id sid g db.swaps)
    (hgid : ∀ s, (g s).id = s.id)
    (hn : (db.swaps.map Swap.id).Nodup)
    (sw : Swap) (hfind : findSwap db sid = some sw)
    (hallow : allowedStep sw.status (g sw).status = true) :
    stepOK db db' = true := by
  unfold stepOK
  rw [hswaps, List.all_eq_true]
  intro s' hs'
  rw [List.all_eq_true]
  intro s hs
  obtain ⟨x, hx, hxe⟩ := List.mem_map.mp hs'
  cases hbx : x.id == sid with
  | false =>
    rw [hbx, cond_false] at hxe
    subst hxe
    by_cases hid : x.id = s.id
    · have hxs : x = s := eq_of_key_eq Swap.id hn hx hs hid
      subst hxs
      simp [allowedStep_refl]
    · simp [hid]
  | true =>
    rw [hbx, cond_true] at hxe
    subst hxe
    have hxid : x.id = sid := by simpa using hbx
    have hxsw : x = sw := eq_findSwap_of_mem hn hfind hx hxid
    subst hxsw
    by_cases hid : (g x).id = s.id
    · have hsx : s = x := by
        refine eq_of_key_eq Swap.id hn hs (mem_of_findSwap hfind) ?_
        rw [← hid, hgid]
      subst hsx
      simp [hallow]
    · simp [hid]

theorem stepOK_of_append (db db' : DB) (ns : Swap)
    (hswaps : db'.swaps = db.swaps ++ [ns])
    (hn : (db.swaps.map Swap.id).Nodup)
    (hfresh : ∀ s ∈ db.swaps, s.id ≠ ns.id) :
    stepOK db db' = true := by
  unfold stepOK
  rw [hswaps, List.all_eq_true]
  intro s' hs'
  rw [List.all_eq_true]
  intro s hs
  rcases List.mem_append.mp hs' with h' | h'
  · by_cases hid : s'.id = s.id
    · have hss : s' = s := eq_of_key_eq Swap.id hn h' hs hid
      subst hss
      simp [allowedStep_refl]
    · simp [hid]
  · have hsn : s' = ns := by simpa using h'
    subst hsn
    have hne : s'.id ≠ s.id := fun hc => hfresh s hs hc.symm
    simp [hne]

theorem respond_ok {db db' : DB} {sid q : Nat} {act : RespondAction} {m : String}
    {t : Nat} (h : respond db sid q act m t = .ok db') :
    ∃ sw item, findSwap db sid = some sw ∧ findItem db sw.requestedItem = some item ∧
      item.owner = q ∧ sw.status = .pending ∧
      ((act = .reject ∧ db' = updateSwapById db sw.id (rejectUpd m)) ∨
       (act = .accept ∧ sw.swapType = .points ∧ db' = apS6 db sw item.owner m t) ∨
       (act = .accept ∧ sw.swapType = .direct ∧ db' = adS7 db sw item.owner m)) := by
  unfold respond at h
  split at h
  · simp at h
  · rename_i sw hfs
    split at h
    · simp at h
    · rename_i item hfi
      split at h
      · simp at h
      · rename_i hq
        simp only [Bool.not_eq_true', beq_eq_false_iff_ne, ne_eq, Decidable.not_not] at hq
        split at h
        · simp at h
        · rename_i hst
          simp only [Bool.not_eq_true', beq_eq_false_iff_ne, ne_eq,
            Decidable.not_not] at hst
          split at h
          · split at h
            · rename_i hty
              simp only [Except.ok.injEq] at h
              exact ⟨sw, item, hfs, hfi, hq, hst,
                Or.inr (Or.inl ⟨rfl, hty, h.symm⟩)⟩
            · rename_i hty
              simp only [Except.ok.injEq] at h
              exact ⟨sw, item, hfs, hfi, hq, hst,
                Or.inr (Or.inr ⟨rfl, hty, h.symm⟩)⟩
          · simp only [Except.ok.injEq] at h
            exact ⟨sw, item, hfs, hfi, hq, hst, Or.inl ⟨rfl, h.symm⟩⟩

theorem complete_ok {db db' : DB} {sid c now : Nat}
    (h : complete db sid c now = .ok db') :
    ∃ sw item, findSwap db sid = some sw ∧ findItem db sw.requestedItem = some item ∧
      (c = sw.requester ∨ c = item.owner) ∧ sw.status = .accepted ∧
      db' = updateSwapById db sw.id (completeUpd now) := by
  unfold complete at h
  split at h
  · simp at h
  · rename_i sw hfs
    split at h
    · simp at h
    · rename_i item hfi
      split at h
      · simp at h
      · rename_i hinv
        simp only [Bool.not_eq_true', Bool.or_eq_false_iff, beq_eq_false_iff_ne,
          ne_eq, Decidable.not_not] at hinv
        split at h
        · simp at h
        · rename_i hst
          simp only [Bool.not_eq_true', beq_eq_false_iff_ne, ne_eq,
            Decidable.not_not] at hst
          simp only [Except.ok.injEq] at h
          exact ⟨sw, item, hfs, hfi, by tauto, hst, h.symm⟩

theorem cancel_ok {db db' : DB} {sid c : Nat} {reason : String}
    (h : cancel db sid c reason = .ok db') :
    ∃ sw item, findSwap db sid = some sw ∧ findItem db sw.requestedItem = some item ∧
      (c = sw.requester ∨ c = item.owner) ∧
      (sw.status = .pending ∨ sw.status = .accepted) ∧
      db' = updateSwapById db sw.id (cancelUpd c reason) := by
  unfold cancel at h
  split at h
  · simp at h
  · rename_i sw hfs
    split at h
    · simp at h
    · rename_i item hfi
      split at h
      · simp at h
      · rename_i hinv
        simp at hinv
        split at h
        · simp at h
        · rename_i hst
          simp at hst
          simp only [Except.ok.injEq] at h
          exact ⟨sw, item, hfs, hfi, by tauto, by tauto, h.symm⟩

theorem rate_ok {db db' : DB} {sid c score : Nat} {comment : String} {now : Nat}
    (h : rate db sid c score comment now = .ok db') :
    ∃ sw, findSwap db sid = some sw ∧ c = sw.requester ∧ sw.status = .completed ∧
      db' = updateSwapById db sw.id (rateUpd score comment now) := by
  unfold rate at h
  split at h
  · simp at h
  · rename_i sw hfs
    split at h
    · rename_i hc
      simp at hc
      split at h
      · simp at h
      · rename_i hst
        simp at hst
        simp only [Except.ok.injEq] at h
        exact ⟨sw, hfs, hc, hst, h.symm⟩
    · simp at h

theorem finishCreate_ok {db db' : DB} {q : Nat} {r : CreateReq} {n : Nat}
    (h : finishCreate db q r n = .ok db') :
    (db.swaps.any (fun s => s.requester == q
       && s.requestedItem == r.requestedItem && s.status == SwapStatus.pending)) = false ∧
    db' = { db with swaps := db.swaps ++ [newSwapOf q r n] } := by
  unfold finishCreate at h
  split at h
  · simp at h
  · rename_i hdup
    simp only [Except.ok.injEq] at h
    exact ⟨Bool.of_not_eq_true hdup, h.symm⟩

theorem createSwap_ok {db db' : DB} {q : Nat} {r : CreateReq} {n : Nat}
    (h : createSwap db q r n = .ok db') :
    (db.swaps.any (fun s => s.requester == q
       && s.requestedItem == r.requestedItem && s.status == SwapStatus.pending)) = false ∧
    db' = { db with swaps := db.swaps ++ [newSwapOf q r n] } := by
  unfold createSwap at h
  split at h
  · simp at h
  · split at h
    · simp at h
    · rename_i u hfu
      split at h
      · simp at h
      · rename_i item hfi
        split at h
        · simp at h
        · split at h
          · simp at h
          · split at h
            · split at h
              · simp at h
              · split at h
                · simp at h
                · split at h
                  · simp at h
                  · exact finishCreate_ok h
            · split at h
              · simp at h
              · split at h
                · simp at h
                · split at h
                  · simp at h
                  · exact finishCreate_ok h

theorem markUnavailable_ok {db db' : DB} {iid c : Nat}
    (h : markUnavailable db iid c = .ok db') :
    ∃ item, findItem db iid = some item ∧ item.owner = c ∧ item.isAvailable = true ∧
      db' = incItemsCount { db with items := db.items.filter (fun i => !(i.id == iid)) }
        c (-1) := by
  unfold markUnavailable at h
  split at h
  · simp at h
  · rename_i item hfi
    split at h
    · simp at h
    · rename_i hown
      simp at hown
      split at h
      · simp at h
      · rename_i hav
        simp at hav
        simp only [Except.ok.injEq] at h
        exact ⟨item, hfi, hown, hav, h.symm⟩

theorem findUser_apS1_requester (db : DB) (sw : Swap) :
    findUser (apS1 db sw) sw.requester =
      (findUser db sw.requester).map
        (fun u => { u with points := u.points + -(sw.pointsOffered : Int) }) :=
  findUser_updateUserById_self _ _ _ (fun _ => rfl)

theorem findUser_apS1_other (db : DB) (sw : Swap) (v : Nat) (h : v ≠ sw.requester) :
    findUser (apS1 db sw) v = findUser db v :=
  findUser_updateUserById_other _ _ _ _ (fun _ => rfl) h

theorem findUser_apS6_requester (db : DB) (sw : Swap) (ownerId : Nat) (m : String)
    (t : Nat) (hro : sw.requester ≠ ownerId) :
    findUser (apS6 db sw ownerId m t) sw.requester =
      ((findUser db sw.requester).map
        (fun u => { u with points := u.points + -(sw.pointsOffered : Int) })).map
        (fun u => { u with swapsCount := u.swapsCount + 1, points := u.points + 100 }) := by
  have h6 : findUser (apS6 db sw ownerId m t) sw.requester =
      findUser (apS5 db sw ownerId m t) sw.requester :=
    findUser_updateUserById_other _ _ _ _ (fun _ => rfl) hro
  have h5 : findUser (apS5 db sw ownerId m t) sw.requester =
      (findUser (apS4 db sw ownerId m t) sw.requester).map
        (fun u => { u with swapsCount := u.swapsCount + 1, points := u.points + 100 }) :=
    findUser_updateUserById_self _ _ _ (fun _ => rfl)
  have h2 : findUser (apS2 db sw ownerId) sw.requester =
      findUser (apS1 db sw) sw.requester :=
    findUser_updateUserById_other _ _ _ _ (fun _ => rfl) hro
  have h4 : findUser (apS4 db sw ownerId m t) sw.requester =
      findUser (apS2 db sw ownerId) sw.requester := rfl
  rw [h6, h5, h4, h2, findUser_apS1_requester]

theorem findUser_apS6_owner (db : DB) (sw : Swap) (ownerId : Nat) (m : String)
    (t : Nat) (hro : ownerId ≠ sw.requester) :
    findUser (apS6 db sw ownerId m t) ownerId =
      ((findUser db ownerId).map
        (fun u => { u with points := u.points + (sw.pointsOffered : Int) })).map
        (fun u => { u with swapsCount := u.swapsCount + 1, points := u.points + 100 }) := by
  have h6 : findUser (apS6 db sw ownerId m t) ownerId =
      (findUser (apS5 db sw ownerId m t) ownerId).map
        (fun u => { u with swapsCount := u.swapsCount + 1, points := u.points + 100 }) :=
    findUser_updateUserById_self _ _ _ (fun _ => rfl)
  have h5 : findUser (apS5 db sw ownerId m t) ownerId =
      findUser (apS4 db sw ownerId m t) ownerId :=
    findUser_updateUserById_other _ _ _ _ (fun _ => rfl) hro
  have h4 : findUser (apS4 db sw ownerId m t) ownerId =
      findUser (apS2 db sw ownerId) ownerId := rfl
  have h2 : findUser (apS2 db sw ownerId) ownerId =
      (findUser (apS1 db sw) ownerId).map
        (fun u => { u with points := u.points + (sw.pointsOffered : Int) }) :=
    findUser_updateUserById_self _ _ _ (fun _ => rfl)
  rw [h6, h5, h4, h2, findUser_apS1_other db sw ownerId hro]

theorem pairNodupB_updBy (db db' : DB) (sid : Nat) (g : Swap → Swap)
    (hswaps : db'.swaps = updBy Swap.id sid g db.swaps)
    (hreq : ∀ s, (g s).requester = s.requester)
    (hitem : ∀ s, (g s).requestedItem = s.requestedItem)
    (hpend : ∀ s, (g s).status = .pending → s.status = .pending)
    (h : pairNodupB db = true) : pairNodupB db' = true := by
  have hfreq : ∀ z : Swap, (bif z.id == sid then g z else z).requester = z.requester := by
    intro z
    cases hbz : z.id == sid
    · rw [cond_false]
    · rw [cond_true]; exact hreq z
  have hfitem : ∀ z : Swap,
      (bif z.id == sid then g z else z).requestedItem = z.requestedItem := by
    intro z
    cases hbz : z.id == sid
    · rw [cond_false]
    · rw [cond_true]; exact hitem z
  have hfpend : ∀ z : Swap,
      (bif z.id == sid then g z else z).status = .pending → z.status = .pending := by
    intro z
    cases hbz : z.id == sid
    · rw [cond_false]; exact id
    · rw [cond_true]; exact hpend z
  unfold pairNodupB at h
  unfold pairNodupB
  rw [hswaps, List.all_eq_true]
  intro s' hs'
  rw [List.all_eq_true]
  intro t' ht'
  obtain ⟨x, hx, hxe⟩ := List.mem_map.mp hs'
  obtain ⟨y, hy, hye⟩ := List.mem_map.mp ht'
  by_cases hc : s'.status = SwapStatus.pending ∧ t'.status = SwapStatus.pending
      ∧ s'.requester = t'.requester ∧ s'.requestedItem = t'.requestedItem
  · obtain ⟨hps, hpt, hr, hi⟩ := hc
    subst hxe
    subst hye
    have hxp : x.status = .pending := hfpend x hps
    have hyp : y.status = .pending := hfpend y hpt
    have hxyreq : x.requester = y.requester := by
      rw [← hfreq x, ← hfreq y]; exact hr
    have hxyitem : x.requestedItem = y.requestedItem := by
      rw [← hfitem x, ← hfitem y]; exact hi
    have hinner := List.all_eq_true.mp (List.all_eq_true.mp h x hx) y hy
    simp only [hxp, hyp, hxyreq, hxyitem, beq_self_eq_true, Bool.and_self,
      Bool.not_true, Bool.false_or] at hinner
    have hxy : x = y := by simpa using hinner
    subst hxy
    simp
  · have hb : (s'.status == SwapStatus.pending && t'.status == SwapStatus.pending
        && s'.requester == t'.requester && s'.requestedItem == t'.requestedItem) = false := by
      rw [Bool.eq_false_iff]
      intro hcontra
      simp only [Bool.and_eq_true, beq_iff_eq] at hcontra
      exact hc ⟨hcontra.1.1.1, hcontra.1.1.2, hcontra.1.2, hcontra.2⟩
    simp [hb]

theorem pairNodupB_append (db db' : DB) (ns : Swap)
    (hswaps : db'.swaps = db.swaps ++ [ns])
    (hdup : ∀ s ∈ db.swaps, ¬(s.status = .pending ∧ s.requester = ns.requester
      ∧ s.requestedItem = ns.requestedItem))
    (h : pairNodupB db = true) : pairNodupB db' = true := by
  unfold pairNodupB at h
  unfold pairNodupB
  rw [hswaps, List.all_eq_true]
  intro s' hs'
  rw [List.all_eq_true]
  intro t' ht'
  by_cases hc : s'.status = SwapStatus.pending ∧ t'.status = SwapStatus.pending
      ∧ s'.requester = t'.requester ∧ s'.requestedItem = t'.requestedItem
  · obtain ⟨hps, hpt, hr, hi⟩ := hc
    rcases List.mem_append.mp hs' with hs1 | hs1
    · rcases List.mem_append.mp ht' with ht1 | ht1
      · have hinner := List.all_eq_true.mp (List.all_eq_true.mp h s' hs1) t' ht1
        simp only [hps, hpt, hr, hi, beq_self_eq_true, Bool.and_self,
          Bool.not_true, Bool.false_or] at hinner
        have hst : s' = t' := by simpa using hinner
        subst hst
        simp
      · have htn : t' = ns := by simpa using ht1
        subst htn
        exact absurd ⟨hps, hr, hi⟩ (hdup s' hs1)
    · have hsn : s' = ns := by simpa using hs1
      subst hsn
      rcases List.mem_append.mp ht' with ht1 | ht1
      · exact absurd ⟨hpt, hr.symm, hi.symm⟩ (hdup t' ht1)
      · have htn : t' = s' := by simpa using ht1
        subst htn
        simp
  · have hb : (s'.status == SwapStatus.pending && t'.status == SwapStatus.pending
        && s'.requester == t'.requester && s'.requestedItem == t'.requestedItem) = false := by
      rw [Bool.eq_false_iff]
      intro hcontra
      simp only [Bool.and_eq_true, beq_iff_eq] at hcontra
      exact hc ⟨hcontra.1.1.1, hcontra.1.1.2, hcontra.1.2, hcontra.2⟩
    simp [hb]

theorem find?_filter_not (l : List α) (p : α → Bool) :
    (l.filter (fun x => !(p x))).find? p = none := by
  induction l with
  | nil => rfl
  | cons a t ih =>
    cases hp : p a with
    | true => simp [List.filter_cons, hp, ih]
    | false => simp [List.filter_cons, hp, List.find?_cons, ih]

theorem findSwap_apS6_self (db : DB) (sw : Swap) (ownerId : Nat) (m : String)
    (t : Nat) :
    findSwap (apS6 db sw ownerId m t) sw.id =
      (findSwap db sw.id).map (acceptPointsUpd sw ownerId m t) := by
  have h2 : findSwap (apS4 db sw ownerId m t) sw.id =
      (findSwap (apS3 db sw ownerId) sw.id).map (acceptPointsUpd sw ownerId m t) :=
    findSwap_updateSwapById_self _ _ _ (fun _ => rfl)
  have h1 : findSwap (apS6 db sw ownerId m t) sw.id =
      findSwap (apS4 db sw ownerId m t) sw.id := rfl
  have h3 : findSwap (apS3 db sw ownerId) sw.id = findSwap db sw.id := rfl
  rw [h1, h2, h3]

theorem findSwap_adS2 (db : DB) (sw : Swap) (v : Nat) :
    findSwap (adS2 db sw) v = findSwap db v :=
  (findSwap_foldl_setItemUnavailable sw.offeredItems (adS1 db sw) v).trans rfl

theorem findSwap_adS7_self (db : DB) (sw : Swap) (ownerId : Nat) (m : String) :
    findSwap (adS7 db sw ownerId m) sw.id =
      (findSwap db sw.id).map (acceptDirectUpd m) := by
  have h2 : findSwap (adS3 db sw m) sw.id =
      (findSwap (adS2 db sw) sw.id).map (acceptDirectUpd m) :=
    findSwap_updateSwapById_self _ _ _ (fun _ => rfl)
  have h1 : findSwap (adS7 db sw ownerId m) sw.id = findSwap (adS3 db sw m) sw.id := rfl
  rw [h1, h2, findSwap_adS2]

/-- C1 (amended): when the owner accepts a pending points-swap, the final
balances satisfy `requester = before - pointsOffered + 100` and
`owner = before + pointsOffered + 100`; however, the transfer is applied as
separate sequential writes, and the state after the first write — an element
of the observable trace of the accept sequence — has the requester already
debited while the owner's balance is still unchanged. -/
theorem c1_points_accept_balances (db : DB) (sid : Nat) (m : String) (t : Nat)
    (sw : Swap) (item : Item) (r o : User)
    (hfs : findSwap db sid = some sw) (hst : sw.status = .pending)
    (hty : sw.swapType = .points)
    (hfi : findItem db sw.requestedItem = some item)
    (hro : sw.requester ≠ item.owner)
    (hfr : findUser db sw.requester = some r)
    (hfo : findUser db item.owner = some o) :
    respond db sid item.owner .accept m t = .ok (apS6 db sw item.owner m t) ∧
    (findUser (apS6 db sw item.owner m t) sw.requester).map User.points
      = some (r.points - (sw.pointsOffered : Int) + 100) ∧
    (findUser (apS6 db sw item.owner m t) item.owner).map User.points
      = some (o.points + (sw.pointsOffered : Int) + 100) ∧
    apS1 db sw ∈ acceptPointsTrace db sw item.owner m t ∧
    (findUser (apS1 db sw) sw.requester).map User.points
      = some (r.points - (sw.pointsOffered : Int)) ∧
    (findUser (apS1 db sw) item.owner).map User.points = some o.points := by
  refine ⟨?_, ?_, ?_, ?_, ?_, ?_⟩
  · simp [respond, hfs, hfi, hst, hty]
  · rw [findUser_apS6_requester db sw item.owner m t hro, hfr]
    simp
    omega
  · rw [findUser_apS6_owner db sw item.owner m t (Ne.symm hro), hfo]
    simp
  · simp [acceptPointsTrace]
  · rw [findUser_apS1_requester, hfr]
    simp
    omega
  · rw [findUser_apS1_other db sw item.owner (Ne.symm hro), hfo]
    rfl

/-- C1 witness: the concrete accept of swap 100 on `exDB1`: requester
500 → 520 = 500 - 80 + 100, owner 50 → 230 = 50 + 80 + 100, and the state
after the first write shows 420 against an unchanged 50. -/
theorem c1_points_accept_balances_w :
    respond exDB1 100 2 .accept "" 0 = .ok (apS6 exDB1 exSwap100 2 "" 0) ∧
    (findUser (apS6 exDB1 exSwap100 2 "" 0) 1).map User.points = some 520 ∧
    (findUser (apS6 exDB1 exSwap100 2 "" 0) 2).map User.points = some 230 ∧
    apS1 exDB1 exSwap100 ∈ acceptPointsTrace exDB1 exSwap100 2 "" 0 ∧
    (findUser (apS1 exDB1 exSwap100) 1).map User.points = some 420 ∧
    (findUser (apS1 exDB1 exSwap100) 2).map User.points = some 50 :=
  c1_points_accept_balances exDB1 100 "" 0 exSwap100 exItem10 exUserR exUserO
    (by decide) rfl rfl (by decide) (by decide) (by decide) (by decide)

/-- C1 counterexample to the atomicity clause: accepting the pending
points-swap 100 succeeds, and the state after the very first write of the
accept sequence — an element of its observable trace — has the requester
debited (500 → 420) while the owner still holds the original 50; an
intermediate state in which only one side is updated is observable. -/
theorem c1_atomicity_cex :
    respond exDB1 100 2 .accept "" 0 = .ok (apS6 exDB1 exSwap100 2 "" 0) ∧
    apS1 exDB1 exSwap100 ∈ acceptPointsTrace exDB1 exSwap100 2 "" 0 ∧
    (findUser exDB1 1).map User.points = some 500 ∧
    (findUser (apS1 exDB1 exSwap100) 1).map User.points = some 420 ∧
    (findUser exDB1 2).map User.points = some 50 ∧
    (findUser (apS1 exDB1 exSwap100) 2).map User.points = some 50 := by
  decide

/-- C2: accepting the pending direct swap 200 marks the requested and offered
items unavailable, sets the status to `accepted`, and credits each party the
100-point bonus — but each party's `swapsCount` rises by 2, not 1, because
the handler runs two `$inc swapsCount` updates per party (the duplicated
block at part_004 lines 1681-1692). -/
theorem c2_direct_accept_double_swaps_count :
    Except.map (fun d => (findUser d 1).map User.swapsCount)
      (respond exDB2 200 2 .accept "" 0) = .ok (some 2) ∧
    Except.map (fun d => (findUser d 2).map User.swapsCount)
      (respond exDB2 200 2 .accept "" 0) = .ok (some 2) ∧
    Except.map (fun d => (findUser d 1).map User.points)
      (respond exDB2 200 2 .accept "" 0) = .ok (some 100) ∧
    Except.map (fun d => (findUser d 2).map User.points)
      (respond exDB2 200 2 .accept "" 0) = .ok (some 100) ∧
    Except.map (fun d => (findItem d 10).map Item.isAvailable)
      (respond exDB2 200 2 .accept "" 0) = .ok (some false) ∧
    Except.map (fun d => (findItem d 20).map Item.isAvailable)
      (respond exDB2 200 2 .accept "" 0) = .ok (some false) ∧
    Except.map (fun d => (findSwap d 200).map Swap.status)
      (respond exDB2 200 2 .accept "" 0) = .ok (some .accepted) := by
  decide

/-- C3: a reachable sequence of operations drives a balance below zero: user 1
holds 300 points, creates points-swaps for two 300-point items (each creation
passes the balance check), and both owners accept; the second accept debits an
unguarded `$inc` and leaves user 1 at -100. -/
theorem c3_negative_points_reachable :
    Except.map (fun d => (findUser d 1).map User.points) (runOps exDB3 exOps3)
      = .ok (some (-100)) := by
  decide

/-- C4: with unique swap ids and a fresh id for creations, every successful
operation moves every swap's status only along the graph
pending→accepted/rejected/cancelled, accepted→completed/cancelled; and
respond on a non-pending swap, complete on a non-accepted swap, and cancel on
a terminal swap each return the invalid-state error (and, the handlers
returning before any write, leave the store unchanged). -/
theorem c4_state_machine :
    (∀ (db : DB) (op : Op) (db' : DB), (db.swaps.map Swap.id).Nodup →
        opFreshB db op = true → applyOp db op = .ok db' → stepOK db db' = true) ∧
    (∀ (db : DB) (sid q : Nat) (act : RespondAction) (m : String) (t : Nat)
        (sw : Swap) (item : Item),
        findSwap db sid = some sw → findItem db sw.requestedItem = some item →
        item.owner = q → sw.status ≠ .pending →
        respond db sid q act m t = .error .invalidState) ∧
    (∀ (db : DB) (sid c now : Nat) (sw : Swap) (item : Item),
        findSwap db sid = some sw → findItem db sw.requestedItem = some item →
        (c = sw.requester ∨ c = item.owner) → sw.status ≠ .accepted →
        complete db sid c now = .error .invalidState) ∧
    (∀ (db : DB) (sid c : Nat) (reason : String) (sw : Swap) (item : Item),
        findSwap db sid = some sw → findItem db sw.requestedItem = some item →
        (c = sw.requester ∨ c = item.owner) →
        sw.status ≠ .pending → sw.status ≠ .accepted →
        cancel db sid c reason = .error .invalidState) := by
  refine ⟨?_, ?_, ?_, ?_⟩
  · intro db op db' hn hfresh h
    cases op with
    | create q r n =>
      obtain ⟨hdup, hdb⟩ := createSwap_ok h
      refine stepOK_of_append db db' (newSwapOf q r n) (by rw [hdb]) hn ?_
      intro s hs
      have hfr := List.all_eq_true.mp hfresh s hs
      simpa using hfr
    | respond sid q act m t =>
      obtain ⟨sw, item, hfs, hfi, hq, hst, hcase⟩ := respond_ok h
      have hfs' : findSwap db sw.id = some sw := by
        rw [id_of_findSwap hfs]; exact hfs
      rcases hcase with ⟨hact, hdb⟩ | ⟨hact, hty, hdb⟩ | ⟨hact, hty, hdb⟩
      · exact stepOK_of_updBy db db' sw.id (rejectUpd m) (by rw [hdb]; rfl)
          (fun s => rfl) hn sw hfs' (by rw [hst]; rfl)
      · exact stepOK_of_updBy db db' sw.id (acceptPointsUpd sw item.owner m t)
          (by rw [hdb]; exact swaps_apS6 db sw item.owner m t) (fun s => rfl) hn sw
          hfs' (by rw [hst]; rfl)
      · exact stepOK_of_updBy db db' sw.id (acceptDirectUpd m)
          (by rw [hdb]; exact swaps_adS7 db sw item.owner m) (fun s => rfl) hn sw
          hfs' (by rw [hst]; rfl)
    | complete sid c now =>
      obtain ⟨sw, item, hfs, hfi, hinv, hst, hdb⟩ := complete_ok h
      have hfs' : findSwap db sw.id = some sw := by
        rw [id_of_findSwap hfs]; exact hfs
      exact stepOK_of_updBy db db' sw.id (completeUpd now) (by rw [hdb]; rfl)
        (fun s => rfl) hn sw hfs' (by rw [hst]; rfl)
    | cancel sid c reason =>
      obtain ⟨sw, item, hfs, hfi, hinv, hst, hdb⟩ := cancel_ok h
      have hfs' : findSwap db sw.id = some sw := by
        rw [id_of_findSwap hfs]; exact hfs
      refine stepOK_of_updBy db db' sw.id (cancelUpd c reason) (by rw [hdb]; rfl)
        (fun s => rfl) hn sw hfs' ?_
      rcases hst with hp | ha
      · rw [hp]; rfl
      · rw [ha]; rfl
    | rate sid c score comment now =>
      obtain ⟨sw, hfs, hc, hst, hdb⟩ := rate_ok h
      have hfs' : findSwap db sw.id = some sw := by
        rw [id_of_findSwap hfs]; exact hfs
      exact stepOK_of_updBy db db' sw.id (rateUpd score comment now)
        (by rw [hdb]; rfl) (fun s => rfl) hn sw hfs' (allowedStep_refl sw.status)
  · intro db sid q act m t sw item hfs hfi hq hst
    subst hq
    simp [respond, hfs, hfi, hst]
  · intro db sid c now sw item hfs hfi hinv hst
    have hb : (c == sw.requester || c == item.owner) = true := by
      rcases hinv with hc | hc <;> simp [hc]
    simp [complete, hfs, hfi, hb, hst]
  · intro db sid c reason sw item hfs hfi hinv hp ha
    have hb : (c == sw.requester || c == item.owner) = true := by
      rcases hinv with hc | hc <;> simp [hc]
    have hsb : (sw.status == SwapStatus.pending
        || sw.status == SwapStatus.accepted) = false := by
      simp [hp, ha]
    simp [cancel, hfs, hfi, hb, hsb]

/-- C4 witness: accepting the pending swap 300 respects the graph; responding
to the accepted swap 301, completing the pending swap 300, and cancelling the
completed swap 302 all fail with the invalid-state error. -/
theorem c4_state_machine_w :
    stepOK exDB4 (apS6 exDB4 exSwap300 2 "" 0) = true ∧
    respond exDB4 301 2 .accept "" 0 = Except.error Err.invalidState ∧
    complete exDB4 300 1 7 = Except.error Err.invalidState ∧
    cancel exDB4 302 1 "" = Except.error Err.invalidState := by
  refine ⟨?_, ?_, ?_, ?_⟩
  · exact c4_state_machine.1 exDB4 (.respond 300 2 .accept "" 0)
      (apS6 exDB4 exSwap300 2 "" 0) (by decide) (by decide) (by decide)
  · exact c4_state_machine.2.1 exDB4 301 2 .accept "" 0 exSwap301 exItem10
      (by decide) (by decide) (by decide) (by decide)
  · exact c4_state_machine.2.2.1 exDB4 300 1 7 exSwap300 exItem10
      (by decide) (by decide) (by decide) (by decide)
  · exact c4_state_machine.2.2.2 exDB4 302 1 "" exSwap302 exItem10
      (by decide) (by decide) (by decide) (by decide) (by decide)

/-- C5: a successful creation implies no pending swap for the same
`(requester, requestedItem)` pair existed; when one does exist and every
earlier guard passes, creation fails with the duplicate-request error (and,
the handler returning before the save, creates no swap); and every successful
operation preserves the at-most-one-pending-swap-per-pair invariant. -/
theorem c5_duplicate_pending :
    (∀ (db db' : DB) (q : Nat) (r : CreateReq) (n : Nat),
        createSwap db q r n = .ok db' →
        db.swaps.any (fun s => s.requester == q
          && s.requestedItem == r.requestedItem
          && s.status == SwapStatus.pending) = false) ∧
    (∀ (db : DB) (q : Nat) (r : CreateReq) (n : Nat) (u : User) (item : Item)
        (p : Nat) (dup : Swap),
        findUser db q = some u → findItem db r.requestedItem = some item →
        item.isAvailable = true → item.isApproved = true → item.owner ≠ q →
        r.swapType = .points → r.pointsOffered = some p → p ≠ 0 →
        (p : Int) ≤ u.points → p = item.pointsValue →
        dup ∈ db.swaps → dup.requester = q → dup.requestedItem = r.requestedItem →
        dup.status = .pending →
        createSwap db q r n = .error .duplicateRequest) ∧
    (∀ (db : DB) (op : Op) (db' : DB), pairNodupB db = true →
        applyOp db op = .ok db' → pairNodupB db' = true) := by
  refine ⟨?_, ?_, ?_⟩
  · intro db db' q r n h
    exact (createSwap_ok h).1
  · intro db q r n u item p dup hfu hfi hia hip hown hty hpo hp0 hle hpv hmem
      hdreq hditem hdst
    have hdupany : db.swaps.any (fun s => s.requester == q
        && s.requestedItem == r.requestedItem
        && s.status == SwapStatus.pending) = true := by
      rw [List.any_eq_true]
      exact ⟨dup, hmem, by simp [hdreq, hditem, hdst]⟩
    have h0 : (r.pointsOffered == some 0) = false := by simp [hpo, hp0]
    have hlt : ¬(u.points < (p : Int)) := not_lt.mpr hle
    have hmatch : (p != item.pointsValue) = false := by simp [hpv]
    simp [createSwap, finishCreate, h0, hfu, hfi, hia, hip, hown, hty, hpo, hlt,
      hmatch, hdupany]
    exact hp0
  · intro db op db' hpn h
    cases op with
    | create q r n =>
      obtain ⟨hdup, hdb⟩ := createSwap_ok h
      refine pairNodupB_append db db' (newSwapOf q r n) (by rw [hdb]) ?_ hpn
      intro s hs hc
      obtain ⟨hcs, hcr, hci⟩ := hc
      have hfalse := List.any_eq_false.mp hdup s hs
      apply hfalse
      have h1 : s.requester = q := hcr
      have h2 : s.requestedItem = r.requestedItem := hci
      simp [h1, h2, hcs]
    | respond sid q act m t =>
      obtain ⟨sw, item, hfs, hfi, hq, hst, hcase⟩ := respond_ok h
      rcases hcase with ⟨hact, hdb⟩ | ⟨hact, hty, hdb⟩ | ⟨hact, hty, hdb⟩
      · exact pairNodupB_updBy db db' sw.id (rejectUpd m) (by rw [hdb]; rfl)
          (fun s => rfl) (fun s => rfl) (fun s hc => by simp [rejectUpd] at hc) hpn
      · exact pairNodupB_updBy db db' sw.id (acceptPointsUpd sw item.owner m t)
          (by rw [hdb]; exact swaps_apS6 db sw item.owner m t) (fun s => rfl)
          (fun s => rfl) (fun s hc => by simp [acceptPointsUpd] at hc) hpn
      · exact pairNodupB_updBy db db' sw.id (acceptDirectUpd m)
          (by rw [hdb]; exact swaps_adS7 db sw item.owner m) (fun s => rfl)
          (fun s => rfl) (fun s hc => by simp [acceptDirectUpd] at hc) hpn
    | complete sid c now =>
      obtain ⟨sw, item, hfs, hfi, hinv, hst, hdb⟩ := complete_ok h
      exact pairNodupB_updBy db db' sw.id (completeUpd now) (by rw [hdb]; rfl)
        (fun s => rfl) (fun s => rfl) (fun s hc => by simp [completeUpd] at hc) hpn
    | cancel sid c reason =>
      obtain ⟨sw, item, hfs, hfi, hinv, hst, hdb⟩ := cancel_ok h
      exact pairNodupB_updBy db db' sw.id (cancelUpd c reason) (by rw [hdb]; rfl)
        (fun s => rfl) (fun s => rfl) (fun s hc => by simp [cancelUpd] at hc) hpn
    | rate sid c score comment now =>
      obtain ⟨sw, hfs, hc, hst, hdb⟩ := rate_ok h
      exact pairNodupB_updBy db db' sw.id (rateUpd score comment now)
        (by rw [hdb]; rfl) (fun s => rfl) (fun s => rfl) (fun s hs => hs) hpn

/-- C5 witness: on the empty-swap store a creation succeeds with no pending
duplicate; on `exDB1`, whose swap 100 is a pending request by user 1 for item
10, a second request for the same pair fails with the duplicate-request
error; and accepting swap 100 preserves the invariant. -/
theorem c5_duplicate_pending_w :
    exDB5.swaps.any (fun s => s.requester == 1
      && s.requestedItem == exReq5.requestedItem
      && s.status == SwapStatus.pending) = false ∧
    createSwap exDB1 1 exReq5 901 = Except.error Err.duplicateRequest ∧
    pairNodupB (apS6 exDB1 exSwap100 2 "" 0) = true := by
  refine ⟨?_, ?_, ?_⟩
  · exact c5_duplicate_pending.1 exDB5 exDB9res 1 exReq5 900 (by decide)
  · exact c5_duplicate_pending.2.1 exDB1 1 exReq5 901 exUserR exItem10 80 exSwap100
      (by decide) (by decide) (by decide) (by decide) (by decide) rfl rfl
      (by decide) (by decide) (by decide) (by decide) (by decide) (by decide)
      (by decide)
  · exact c5_duplicate_pending.2.2 exDB1 (.respond 100 2 .accept "" 0)
      (apS6 exDB1 exSwap100 2 "" 0) (by decide) (by decide)

/-- C6 counterexample: user 5 marks their available item 1 unavailable; the
route succeeds, but afterwards the item record no longer exists at all
(`findItem` returns `none`): the handler runs `Item.findByIdAndDelete`, it
never sets `isAvailable := false` on a surviving record. -/
theorem c6_cex :
    markUnavailable exDB6 1 5 = Except.ok exDB6res ∧
    findItem exDB6res 1 = none := by
  decide

/-- C6 (amended): when an owner marks their own available item unavailable,
the route hard-deletes the item record from the store — the item is no longer
findable afterwards — and decrements the owner's `itemsCount` by one; no
`isAvailable` flag is written by this route. -/
theorem c6_mark_unavailable_deletes (db : DB) (iid c : Nat) (item : Item) (u : User)
    (hfi : findItem db iid = some item) (hown : item.owner = c)
    (hav : item.isAvailable = true) (hfu : findUser db c = some u) :
    markUnavailable db iid c = .ok (incItemsCount
      { db with items := db.items.filter (fun i => !(i.id == iid)) } c (-1)) ∧
    findItem (incItemsCount
      { db with items := db.items.filter (fun i => !(i.id == iid)) } c (-1)) iid
      = none ∧
    (findUser (incItemsCount
      { db with items := db.items.filter (fun i => !(i.id == iid)) } c (-1)) c).map
      User.itemsCount = some (u.itemsCount - 1) := by
  refine ⟨?_, ?_, ?_⟩
  · simp [markUnavailable, hfi, hown, hav]
  · exact find?_filter_not db.items (fun i => i.id == iid)
  · have h1 : findUser (incItemsCount
        { db with items := db.items.filter (fun i => !(i.id == iid)) } c (-1)) c =
        (findUser { db with items := db.items.filter (fun i => !(i.id == iid)) } c).map
          (fun v => { v with itemsCount := v.itemsCount + (-1) }) :=
      findUser_updateUserById_self _ _ _ (fun _ => rfl)
    have h2 : findUser { db with items := db.items.filter (fun i => !(i.id == iid)) } c
        = findUser db c := rfl
    rw [h1, h2, hfu]
    simp
    omega

/-- C6 witness: on `exDB6` the owner's call deletes item 1 and drops the
owner's `itemsCount` from 3 to 2. -/
theorem c6_mark_unavailable_deletes_w :
    markUnavailable exDB6 1 5 = .ok exDB6res ∧
    findItem exDB6res 1 = none ∧
    (findUser exDB6res 5).map User.itemsCount = some 2 :=
  c6_mark_unavailable_deletes exDB6 1 5 exItemM ⟨5, 100, 0, 3⟩
    (by decide) (by decide) (by decide) (by decide)

/-- C7: the accept path of respond performs no availability re-check: for a
pending swap whose requested item has `isAvailable = false`, the owner's
accept still succeeds and the swap becomes `accepted`. -/
theorem c7_accept_ignores_availability (db : DB) (sid : Nat) (m : String) (t : Nat)
    (sw : Swap) (item : Item)
    (hfs : findSwap db sid = some sw) (hst : sw.status = .pending)
    (hfi : findItem db sw.requestedItem = some item)
    (_hunav : item.isAvailable = false) :
    Except.map (fun d => (findSwap d sid).map Swap.status)
      (respond db sid item.owner .accept m t) = .ok (some .accepted) := by
  have hfs' : findSwap db sw.id = some sw := by
    rw [id_of_findSwap hfs]; exact hfs
  have hsid : sid = sw.id := (id_of_findSwap hfs).symm
  cases hty : sw.swapType with
  | points =>
    have hresp : respond db sid item.owner .accept m t
        = .ok (apS6 db sw item.owner m t) := by
      simp [respond, hfs, hfi, hst, hty]
    rw [hresp]
    show Except.ok ((findSwap (apS6 db sw item.owner m t) sid).map Swap.status) = _
    rw [hsid, findSwap_apS6_self, hfs']
    rfl
  | direct =>
    have hresp : respond db sid item.owner .accept m t
        = .ok (adS7 db sw item.owner m) := by
      simp [respond, hfs, hfi, hst, hty]
    rw [hresp]
    show Except.ok ((findSwap (adS7 db sw item.owner m) sid).map Swap.status) = _
    rw [hsid, findSwap_adS7_self, hfs']
    rfl

/-- C7 witness: item 11 is already unavailable, yet accepting the pending
swap 110 for it succeeds and marks the swap accepted. -/
theorem c7_accept_ignores_availability_w :
    Except.map (fun d => (findSwap d 110).map Swap.status)
      (respond exDB7 110 2 .accept "" 0) = .ok (some .accepted) :=
  c7_accept_ignores_availability exDB7 110 "" 0 exSwap110 exItem11
    (by decide) rfl (by decide) rfl

/-- C8: a successful cancel leaves every user (hence every points balance)
and every item (hence every `isAvailable` flag) untouched, and rewrites only
the cancelled swap, setting exactly `status := cancelled`, `cancelledBy` and
`cancellationReason`; in particular cancelling an accepted swap reverses
neither the point transfer nor the item-unavailable flags. -/
theorem c8_cancel_frame (db db' : DB) (sid c : Nat) (reason : String) (sw : Swap)
    (hfs : findSwap db sid = some sw)
    (h : cancel db sid c reason = .ok db') :
    db'.users = db.users ∧ db'.items = db.items ∧
    db'.swaps = updBy Swap.id sw.id (cancelUpd c reason) db.swaps := by
  obtain ⟨sw1, item, hfs1, hfi, hinv, hst, hdb⟩ := cancel_ok h
  rw [hfs] at hfs1
  injection hfs1 with hsw
  subst hsw
  rw [hdb]
  exact ⟨rfl, rfl, rfl⟩

/-- C8 witness: user 1 cancels the accepted swap 301 on `exDB4`; users and
items are unchanged and only swap 301 is rewritten by `cancelUpd`. -/
theorem c8_cancel_frame_w :
    exDB8res.users = exDB4.users ∧ exDB8res.items = exDB4.items ∧
    exDB8res.swaps = updBy Swap.id exSwap301.id (cancelUpd 1 "x") exDB4.swaps :=
  c8_cancel_frame exDB4 exDB8res 301 1 "x" exSwap301 (by decide) (by decide)

/-- C9: a successful swap-request creation changes no user and no item — no
points move and no availability, approval or owner field changes — and
appends exactly one new swap, which is in status `pending`. -/
theorem c9_create_frame (db db' : DB) (q : Nat) (r : CreateReq) (n : Nat)
    (h : createSwap db q r n = .ok db') :
    db'.users = db.users ∧ db'.items = db.items ∧
    db'.swaps = db.swaps ++ [newSwapOf q r n] ∧
    (newSwapOf q r n).status = .pending := by
  obtain ⟨-, hdb⟩ := createSwap_ok h
  rw [hdb]
  exact ⟨rfl, rfl, rfl, rfl⟩

/-- C9 witness: user 1's successful points request for item 10 on `exDB5`
leaves users and items untouched and appends one pending swap. -/
theorem c9_create_frame_w :
    exDB9res.users = exDB5.users ∧ exDB9res.items = exDB5.items ∧
    exDB9res.swaps = exDB5.swaps ++ [newSwapOf 1 exReq5 900] ∧
    (newSwapOf 1 exReq5 900).status = .pending :=
  c9_create_frame exDB5 exDB9res 1 exReq5 900 (by decide)

/-- C10 counterexample: user 7 already likes item 30 (`likedBy = [7]`,
`likes = 1`); after toggling twice the likes counter is restored, but user 7
is again present in `likedBy` — not absent as the claim states for every
item and user. -/
theorem c10_cex :
    (toggleLike (toggleLike exItemL 7) 7).likes = exItemL.likes ∧
    7 ∈ (toggleLike (toggleLike exItemL 7) 7).likedBy := by
  decide

/-- C10 (amended): for an item whose `likedBy` has no duplicates, toggling
twice by the same user restores the likes counter and the user's membership
status (absent afterwards if and only if absent before); a single call
removes the user and decrements when present, adds the user and increments
when absent, and never errors (the operation is total). -/
theorem c10_toggle_like (item : Item) (u : Nat) (hnd : item.likedBy.Nodup) :
    ((toggleLike (toggleLike item u) u).likes = item.likes ∧
      (u ∈ (toggleLike (toggleLike item u) u).likedBy ↔ u ∈ item.likedBy)) ∧
    (u ∈ item.likedBy →
      (toggleLike item u).likes = item.likes - 1 ∧ u ∉ (toggleLike item u).likedBy) ∧
    (u ∉ item.likedBy →
      (toggleLike item u).likes = item.likes + 1 ∧ u ∈ (toggleLike item u).likedBy) := by
  by_cases hm : u ∈ item.likedBy
  · have ht1 : toggleLike item u =
        { item with likedBy := item.likedBy.erase u, likes := item.likes - 1 } := by
      simp [toggleLike, hm]
    have hnotmem : u ∉ item.likedBy.erase u := by
      intro hc
      exact absurd ((List.Nodup.mem_erase_iff hnd).mp hc).1 (by simp)
    have ht2 : toggleLike (toggleLike item u) u =
        { item with likedBy := item.likedBy.erase u ++ [u],
                    likes := item.likes - 1 + 1 } := by
      rw [ht1]
      simp [toggleLike, hnotmem]
    refine ⟨⟨?_, ?_⟩, fun _ => ⟨by rw [ht1], by rw [ht1]; exact hnotmem⟩,
      fun hc => absurd hm hc⟩
    · rw [ht2]
      show item.likes - 1 + 1 = item.likes
      omega
    · rw [ht2]
      simp [hm]
  · have ht1 : toggleLike item u =
        { item with likedBy := item.likedBy ++ [u], likes := item.likes + 1 } := by
      simp [toggleLike, hm]
    have hmem2 : u ∈ item.likedBy ++ [u] := by simp
    have ht2 : toggleLike (toggleLike item u) u =
        { item with likedBy := (item.likedBy ++ [u]).erase u,
                    likes := item.likes + 1 - 1 } := by
      rw [ht1]
      simp [toggleLike, hmem2]
    have herase : (item.likedBy ++ [u]).erase u = item.likedBy := by
      rw [List.erase_append_right _ hm]
      simp
    refine ⟨⟨?_, ?_⟩, fun hc => absurd hc hm,
      fun _ => ⟨by rw [ht1], by rw [ht1]; exact hmem2⟩⟩
    · rw [ht2]
      show item.likes + 1 - 1 = item.likes
      omega
    · rw [ht2, herase]

/-- C10 witness: on item 30 (`likedBy = [7]`, duplicate-free) the double
toggle by user 7 restores `likes` and leaves 7's membership as it was. -/
theorem c10_toggle_like_w :
    (toggleLike (toggleLike exItemL 7) 7).likes = exItemL.likes ∧
    (7 ∈ (toggleLike (toggleLike exItemL 7) 7).likedBy ↔ 7 ∈ exItemL.likedBy) :=
  (c10_toggle_like exItemL 7 (by decide)).1

end ReWear
